import Mathlib

/-!
Shallow embedding of the sequential tool-calling orchestration engine of
`backend/ai_generator.py` (classes `ConversationState` and `AIGenerator`).

Modelling conventions:
- Provider content blocks (`response.content`) are `RawBlock`; a block whose
  `type` attribute is neither `"text"` nor `"tool_use"` is `RawBlock.otherTyped`,
  and a block with no `type` attribute at all is `RawBlock.noType`.
- Transcript messages hold `MsgContent`: the initial user message stores the
  plain query string, later messages store converted block lists; the legacy
  path appends the provider blocks unconverted (`MsgContent.raw`).
- The Anthropic client is an oracle `Client : Nat → Request → Except String Resp`:
  argument one is the zero-based index of the API call within the query, and an
  `Except.error` models `messages.create` raising.  Every orchestrator entry
  point also returns the ordered log of requests it issued, so that theorems
  can count LLM calls and inspect their parameters.
- A tool manager is `ToolManager : String → ToolInput → Except String String`;
  `Except.error e` models `execute_tool` raising an exception whose `str` is `e`.
- Python truthiness of `Optional` values is modelled explicitly (`truthyStr`,
  `truthyList`): `None`, `""` and `[]` are falsy.
- Code that can raise (`content_block.text` on a non-text block, iteration over
  a block with no `type` attribute) is `Except`-valued; the `try/except`
  handlers of the source are the points where those errors are consumed.
-/

namespace RagChatbot

/-- Keyword arguments of one tool call (`content_block.input`). -/
abbrev ToolInput := List (String × String)

/-- One tool definition as passed through to the API (opaque here). -/
abbrev ToolDef := String

/-- A provider content block as the orchestrator inspects it. -/
inductive RawBlock where
  | text (text : String)
  | toolUse (id : String) (name : String) (input : ToolInput)
  | otherTyped (ty : String)
  | noType
deriving DecidableEq

/-- Reading `content_block.text`: raises `AttributeError` unless a text block. -/
def RawBlock.getText : RawBlock → Except String String
  | RawBlock.text t => Except.ok t
  | _ => Except.error "AttributeError: content block has no attribute text"

/-- A converted content block stored in the messages transcript. -/
inductive MsgBlock where
  | text (text : String)
  | toolUse (id : String) (name : String) (input : ToolInput)
  | toolResult (tool_use_id : String) (content : String)
deriving DecidableEq

/-- Content of one transcript message: the initial query is a plain string,
converted rounds are `MsgBlock` lists, the legacy path stores raw blocks. -/
inductive MsgContent where
  | str (s : String)
  | blocks (bs : List MsgBlock)
  | raw (bs : List RawBlock)
deriving DecidableEq

/-- One transcript message (`{"role": ..., "content": ...}`). -/
structure Message where
  role : String
  content : MsgContent
deriving DecidableEq

/-- A provider response (`stop_reason`, `content`). -/
structure Resp where
  stop_reason : String
  content : List RawBlock
deriving DecidableEq

/-- The parameters of one `messages.create` call that the claims inspect:
`tools = none` means the request carries no `tools` key at all. -/
structure Request where
  messages : List Message
  system : String
  tools : Option (List ToolDef)
deriving DecidableEq

/-- The tool manager: `execute_tool` by name, `Except.error` models a raise. -/
abbrev ToolManager := String → ToolInput → Except String String

/-- The LLM client oracle: call index within this query, request, outcome. -/
abbrev Client := Nat → Request → Except String Resp

/-- Python truthiness of an optional string (`None` and `""` are falsy). -/
def truthyStr : Option String → Bool
  | none => false
  | some s => !(s == "")

/-- Python truthiness of an optional list (`None` and `[]` are falsy). -/
def truthyList {α : Type} : Option (List α) → Bool
  | none => false
  | some l => !l.isEmpty

/-- The fixed fallback answer used throughout `ai_generator.py`. -/
def fallbackResponse : String :=
  "I apologize, but I encountered an error processing your request."

/-- The placeholder answer for a response with no content blocks. -/
def emptyResponseText : String := "I apologize, but I received an empty response."

/-- `ConversationState` of `ai_generator.py` (state across sequential rounds). -/
structure ConversationState where
  initial_query : String
  conversation_history : Option String
  tools : Option (List ToolDef)
  tool_manager : Option ToolManager
  messages : List Message
  tool_results : List String
  round_number : Nat
  final_response : Option String

/-- `ConversationState.create`. -/
def ConversationState.create (query : String) (conversation_history : Option String)
    (tools : Option (List ToolDef)) (tool_manager : Option ToolManager) :
    ConversationState :=
  { initial_query := query
    conversation_history := conversation_history
    tools := tools
    tool_manager := tool_manager
    messages := [⟨"user", MsgContent.str query⟩]
    tool_results := []
    round_number := 0
    final_response := none }

/-- The conversion loop of `add_round_result`: `text` and `tool_use` blocks are
converted in order, any other block (including one with no `type`) is dropped. -/
def convertContentBlocks : List RawBlock → List MsgBlock
  | [] => []
  | RawBlock.text t :: rest => MsgBlock.text t :: convertContentBlocks rest
  | RawBlock.toolUse i n inp :: rest => MsgBlock.toolUse i n inp :: convertContentBlocks rest
  | RawBlock.otherTyped _ :: rest => convertContentBlocks rest
  | RawBlock.noType :: rest => convertContentBlocks rest

/-- `zip(tool_results, tool_use_ids)` turned into `tool_result` blocks. -/
def buildToolResultBlocks : List String → List String → List MsgBlock
  | r :: rs, i :: is => MsgBlock.toolResult i r :: buildToolResultBlocks rs is
  | _, _ => []

/-- `ConversationState.add_round_result`: bump the round counter, extend
`tool_results`, append the converted assistant message, and, when both lists
are non-empty, append one user message holding the `tool_result` blocks. -/
def ConversationState.add_round_result (st : ConversationState) (response : Resp)
    (tool_results : List String) (tool_use_ids : List String) : ConversationState :=
  { st with
    round_number := st.round_number + 1
    tool_results := st.tool_results ++ tool_results
    messages := st.messages
      ++ [⟨"assistant", MsgContent.blocks (convertContentBlocks response.content)⟩]
      ++ (if !tool_results.isEmpty && !tool_use_ids.isEmpty then
            [⟨"user", MsgContent.blocks (buildToolResultBlocks tool_results tool_use_ids)⟩]
          else []) }

/-- `ConversationState.set_final_response`. -/
def ConversationState.set_final_response (st : ConversationState) (s : String) :
    ConversationState :=
  { st with final_response := some s }

/-- `ConversationState.get_final_response`: `self.final_response or fallback`,
so both `None` and `""` yield the fallback string. -/
def ConversationState.get_final_response (st : ConversationState) : String :=
  match st.final_response with
  | some s => if s == "" then fallbackResponse else s
  | none => fallbackResponse

/-- `AIGenerator.SYSTEM_PROMPT` (the legacy single-round system prompt). -/
def SYSTEM_PROMPT : String :=
  " You are an AI assistant specialized in course materials and educational content with access to comprehensive tools for course information.\n\nTool Usage Guidelines:\n- **Course Outline Queries**: Use `get_course_outline` for questions about course structure, lesson lists, or course overviews\n- **Content Search Queries**: Use `search_course_content` for questions about specific course content or detailed educational materials\n- **One tool call per query maximum**\n- Synthesize tool results into accurate, fact-based responses\n- If tools yield no results, state this clearly without offering alternatives\n\nResponse Protocol:\n- **General knowledge questions**: Answer using existing knowledge without using tools\n- **Course structure questions** (outline, lessons, structure): Use course outline tool first, then answer\n- **Course content questions** (specific topics, details): Use content search tool first, then answer\n- **No meta-commentary**:\n - Provide direct answers only — no reasoning process, tool explanations, or question-type analysis\n - Do not mention \"based on the tool results\" or \"according to the search\"\n\nWhen providing course outlines, include:\n- Course title and instructor (if available)\n- Course link (if available)\n- Complete lesson list formatted as \"Lesson X: Title\"\n\nAll responses must be:\n1. **Brief, Concise and focused** - Get to the point quickly\n2. **Educational** - Maintain instructional value\n3. **Clear** - Use accessible language\n4. **Example-supported** - Include relevant examples when they aid understanding\nProvide only the direct answer to what was asked.\n"

/-- `AIGenerator.SEQUENTIAL_SYSTEM_PROMPT` (the multi-round system prompt). -/
def SEQUENTIAL_SYSTEM_PROMPT : String :=
  " You are an AI assistant specialized in course materials and educational content with access to comprehensive tools for multi-step reasoning.\n\n**Sequential Reasoning Protocol:**\n- You have up to 2 rounds of tool usage to answer complex questions\n- Each tool call is a separate API interaction where you can reason about previous results\n- Use round 1 for information gathering, round 2 for follow-up searches or clarification\n- After tool usage is complete, provide your comprehensive final answer\n\n**Tool Usage Strategy:**\n- **Complex queries requiring multiple searches**: Use multiple rounds strategically\n- **Simple queries**: Use tools once then answer directly  \n- **Cross-referencing**: Get course outline first, then search specific content\n- **Topic correlation**: Search course A for topic, then find courses with similar content\n\n**Reasoning Examples:**\n- \"Find courses similar to lesson 4 of course X\": \n  Round 1: Get course X outline to identify lesson 4 topic\n  Round 2: Search for courses containing that topic\n- \"Compare lesson 3 content between courses A and B\":\n  Round 1: Search lesson 3 in course A  \n  Round 2: Search lesson 3 in course B\n\n**Termination Rules:**\n- Provide final answer when you have sufficient information\n- Don\x27t use tools if previous results fully answer the question\n- Quality over quantity - use tools purposefully\n\n**Response Guidelines:**\n- **No meta-commentary**: Don\x27t mention \"based on tool results\" or reasoning process\n- **Direct answers**: Get straight to the point\n- **Educational**: Maintain instructional value\n- **Clear**: Use accessible language\n\nWhen providing course outlines, include:\n- Course title and instructor (if available)\n- Course link (if available)\n- Complete lesson list formatted as \"Lesson X: Title\"\n"

/-- The truncation of one tool result inside `_summarize_tool_results`:
`result[:300] + "..." if len(result) > 300 else result`. -/
def truncateResult (r : String) : String :=
  if 300 < r.length then String.mk (r.data.take 300) ++ "..." else r

/-- The `enumerate(self.tool_results, 1)` loop of `_summarize_tool_results`. -/
def summarizeFrom (i : Nat) : List String -> List String
  | [] => []
  | r :: rs => ("Result " ++ toString i ++ ": " ++ truncateResult r) :: summarizeFrom (i + 1) rs

/-- `ConversationState._summarize_tool_results`. -/
def ConversationState.summarize_tool_results (st : ConversationState) : String :=
  if st.tool_results.isEmpty then "No tool results yet."
  else String.intercalate "\n" (summarizeFrom 1 st.tool_results)

/-- `ConversationState.get_system_content`: base prompt, optional history
block, round annotation, and (except in round 1) the tool-result summary. -/
def ConversationState.get_system_content (st : ConversationState)
    (round_num : Nat) (max_rounds : Nat) : String :=
  let base_prompt := SEQUENTIAL_SYSTEM_PROMPT
  let base_prompt :=
    if truthyStr st.conversation_history then
      base_prompt ++ "\n\nPrevious conversation:\n" ++ st.conversation_history.getD ""
    else base_prompt
  let round_context := "\n\nCURRENT ROUND: " ++ toString round_num ++ "/" ++ toString max_rounds
  let round_context :=
    if round_num == 1 then
      round_context ++ "\nThis is your first round. Use tools strategically for information gathering."
    else if round_num == max_rounds then
      let rc := round_context ++ "\nThis is your final round. Synthesize information and provide a complete answer."
      if !st.tool_results.isEmpty then
        rc ++ "\n\nPrevious tool results summary:\n" ++ st.summarize_tool_results
      else rc
    else
      let rc := round_context ++ "\nContinue gathering information or refine your search based on previous results."
      if !st.tool_results.isEmpty then
        rc ++ "\n\nPrevious tool results:\n" ++ st.summarize_tool_results
      else rc
  base_prompt ++ round_context

/-- The loop body of `AIGenerator._execute_tools_for_round`, with the running
result and id accumulators.  Executing a `tool_use` block whose handler raises
appends `"Error executing tool {name}: {message}"` and still appends the id;
a block with no `type` attribute raises `AttributeError` out of the loop. -/
def execute_tools_go (tool_manager : ToolManager) (acc_results : List String)
    (acc_ids : List String) : List RawBlock → Except String (List String × List String)
  | [] => Except.ok (acc_results, acc_ids)
  | RawBlock.noType :: _ => Except.error "AttributeError: content block has no attribute type"
  | RawBlock.toolUse i n inp :: rest =>
    match tool_manager n inp with
    | Except.ok r => execute_tools_go tool_manager (acc_results ++ [r]) (acc_ids ++ [i]) rest
    | Except.error e =>
      execute_tools_go tool_manager
        (acc_results ++ ["Error executing tool " ++ n ++ ": " ++ e]) (acc_ids ++ [i]) rest
  | RawBlock.text _ :: rest => execute_tools_go tool_manager acc_results acc_ids rest
  | RawBlock.otherTyped _ :: rest => execute_tools_go tool_manager acc_results acc_ids rest

/-- `AIGenerator._execute_tools_for_round`. -/
def execute_tools_for_round (tool_manager : ToolManager) (content : List RawBlock) :
    Except String (List String × List String) :=
  execute_tools_go tool_manager [] [] content

/-- Outcome of `AIGenerator._execute_round`: the mutated conversation state,
the request log so far, and the returned response (`none` on a round error). -/
structure RoundOutcome where
  conv : ConversationState
  log : List Request
  response : Option Resp

/-- The request `_execute_round` sends: full transcript, per-round system
content, and the tools key exactly when `conversation.tools` is truthy. -/
def mkRoundRequest (conv : ConversationState) (round_num : Nat) (max_rounds : Nat) :
    Request :=
  ⟨conv.messages, conv.get_system_content round_num max_rounds,
    if truthyList conv.tools then conv.tools else none⟩

/-- The `except` handler of `_execute_round`: round 1 errors set the fallback
as final response, later-round errors leave the state as it is; `None` is
returned in place of a response. -/
def roundError (conv : ConversationState) (log : List Request) (round_num : Nat) :
    RoundOutcome :=
  ⟨if round_num == 1 then conv.set_final_response fallbackResponse else conv, log, none⟩

/-- The non-tool branch of `_execute_round`: the first content block's text
becomes the final response (`AttributeError` on a non-text first block lands in
the round's `except` handler), an empty content list yields the placeholder. -/
def roundDirect (conv : ConversationState) (log : List Request) (response : Resp)
    (round_num : Nat) : RoundOutcome :=
  match response.content with
  | [] => ⟨conv.set_final_response emptyResponseText, log, some response⟩
  | b :: _ =>
    match b.getText with
    | Except.ok final_text => ⟨conv.set_final_response final_text, log, some response⟩
    | Except.error _ => roundError conv log round_num

/-- `AIGenerator._execute_round`. -/
def execute_round (client : Client) (conv : ConversationState) (log : List Request)
    (round_num : Nat) (max_rounds : Nat) : RoundOutcome :=
  let req := mkRoundRequest conv round_num max_rounds
  let newLog := log ++ [req]
  match client log.length req with
  | Except.error _ => roundError conv newLog round_num
  | Except.ok response =>
    match conv.tool_manager, response.stop_reason == "tool_use" with
    | some tm, true =>
      match execute_tools_for_round tm response.content with
      | Except.ok (tool_results, tool_use_ids) =>
        ⟨conv.add_round_result response tool_results tool_use_ids, newLog, some response⟩
      | Except.error _ => roundError conv newLog round_num
    | _, _ => roundDirect conv newLog response round_num

/-- `AIGenerator._should_terminate`. -/
def should_terminate (response : Option Resp) (round_num : Nat) (max_rounds : Nat) :
    Bool :=
  if max_rounds ≤ round_num then true
  else
    match response with
    | none => true
    | some r => !(r.stop_reason == "tool_use")

/-- The `for round_num in range(1, max_rounds + 1)` loop of
`generate_response_sequential`, structurally recursive on the number of rounds
still allowed after the current one (`fuel = max_rounds - round_num`): when the
fuel is `0`, `round_num = max_rounds` holds at every call site, so
`_should_terminate` is true and the round's outcome is returned as is. -/
def seq_loop_go (client : Client) (max_rounds : Nat) :
    Nat → Nat → ConversationState → List Request → RoundOutcome
  | 0, round_num, conv, log => execute_round client conv log round_num max_rounds
  | fuel + 1, round_num, conv, log =>
    let out := execute_round client conv log round_num max_rounds
    if should_terminate out.response round_num max_rounds then out
    else seq_loop_go client max_rounds fuel (round_num + 1) out.conv out.log

/-- The round loop entered at round 1 (callers ensure `1 ≤ max_rounds`). -/
def seq_loop (client : Client) (max_rounds : Nat) (conv : ConversationState) :
    RoundOutcome :=
  seq_loop_go client max_rounds (max_rounds - 1) 1 conv []

/-- The request of `AIGenerator._execute_final_response`: built from the
accumulated transcript, with the final-response system suffix and no tools. -/
def mkFinalRequest (conv : ConversationState) : Request :=
  ⟨conv.messages,
    conv.get_system_content (conv.round_number + 1) (conv.round_number + 1)
      ++ "\n\nIMPORTANT: This is your final response. Provide a complete answer based on the tool results you have gathered. Do not request more tools.",
    none⟩

/-- `AIGenerator._execute_final_response`: one call without tools, `none` when
the call raises (its own `except` handler). -/
def execute_final_response (client : Client) (conv : ConversationState)
    (log : List Request) : List Request × Option Resp :=
  let req := mkFinalRequest conv
  match client log.length req with
  | Except.ok r => (log ++ [req], some r)
  | Except.error _ => (log ++ [req], none)

/-- What `generate_response_sequential` returns, together with the final
conversation state and the ordered log of LLM requests it issued. -/
structure SeqResult where
  answer : String
  conv : ConversationState
  log : List Request

/-- The top-level `except` handler of `generate_response_sequential`: return
the final response when truthy, the fallback string otherwise. -/
def seq_except (conv : ConversationState) (log : List Request) : SeqResult :=
  ⟨if truthyStr conv.final_response then conv.final_response.getD "" else fallbackResponse,
    conv, log⟩

/-- The code after the round loop of `generate_response_sequential`: the
forced-final call when the loop ended at the round ceiling still holding a
`tool_use` response and no truthy final response, then `get_final_response`. -/
def seq_finish (client : Client) (max_rounds : Nat) (out : RoundOutcome) : SeqResult :=
  match out.response with
  | none => ⟨out.conv.get_final_response, out.conv, out.log⟩
  | some response =>
    if response.stop_reason = "tool_use" ∧ max_rounds ≤ out.conv.round_number ∧
        truthyStr out.conv.final_response = false then
      match execute_final_response client out.conv out.log with
      | (log2, none) => ⟨out.conv.get_final_response, out.conv, log2⟩
      | (log2, some final_response) =>
        match final_response.content with
        | [] => ⟨out.conv.get_final_response, out.conv, log2⟩
        | b :: _ =>
          match b.getText with
          | Except.ok t =>
            ⟨(out.conv.set_final_response t).get_final_response,
              out.conv.set_final_response t, log2⟩
          | Except.error _ => seq_except out.conv log2
    else ⟨out.conv.get_final_response, out.conv, out.log⟩

/-- `AIGenerator.generate_response_sequential`.  With `max_rounds = 0` the
`for` loop never runs and the trailing `if response and ...` raises `NameError`
(`response` is unbound), which the top-level handler turns into the fallback. -/
def generate_response_sequential (client : Client) (query : String)
    (conversation_history : Option String) (tools : Option (List ToolDef))
    (tool_manager : Option ToolManager) (max_rounds : Nat) : SeqResult :=
  let conv := ConversationState.create query conversation_history tools tool_manager
  if max_rounds == 0 then seq_except conv []
  else seq_finish client max_rounds (seq_loop client max_rounds conv)

/-- The tool loop of `AIGenerator._handle_tool_execution` (legacy path): no
`try` around `execute_tool`, so the first handler exception (or a block with no
`type` attribute) propagates and every later block goes unexecuted. -/
def handle_tool_batch (tool_manager : ToolManager) :
    List RawBlock → Except String (List MsgBlock)
  | [] => Except.ok []
  | RawBlock.noType :: _ => Except.error "AttributeError: content block has no attribute type"
  | RawBlock.toolUse i n inp :: rest =>
    match tool_manager n inp with
    | Except.ok r =>
      match handle_tool_batch tool_manager rest with
      | Except.ok more => Except.ok (MsgBlock.toolResult i r :: more)
      | Except.error e => Except.error e
    | Except.error e => Except.error e
  | RawBlock.text _ :: rest => handle_tool_batch tool_manager rest
  | RawBlock.otherTyped _ :: rest => handle_tool_batch tool_manager rest

/-- The system content of the legacy `generate_response` (the `\n` here are the
literal backslash-n characters of the source, not newlines). -/
def legacySystemContent (conversation_history : Option String) : String :=
  if truthyStr conversation_history then
    SYSTEM_PROMPT ++ "\\n\\nPrevious conversation:\\n" ++ conversation_history.getD ""
  else SYSTEM_PROMPT

/-- The initial request of the legacy `generate_response`. -/
def legacyRequest (query : String) (conversation_history : Option String)
    (tools : Option (List ToolDef)) : Request :=
  ⟨[⟨"user", MsgContent.str query⟩], legacySystemContent conversation_history,
    if truthyList tools then tools else none⟩

/-- What the legacy `generate_response` returns, with its request log. -/
structure LegacyResult where
  answer : String
  log : List Request

/-- `AIGenerator.generate_response` (legacy single-round path), including
`_handle_tool_execution`.  The whole body sits in one `try/except Exception`
that converts any raise, provider errors included, into the fallback string. -/
def generate_response (client : Client) (query : String)
    (conversation_history : Option String) (tools : Option (List ToolDef))
    (tool_manager : Option ToolManager) : LegacyResult :=
  let req := legacyRequest query conversation_history tools
  match client 0 req with
  | Except.error _ => ⟨fallbackResponse, [req]⟩
  | Except.ok initial_response =>
    match tool_manager, initial_response.stop_reason == "tool_use" with
    | some tm, true =>
      match handle_tool_batch tm initial_response.content with
      | Except.error _ => ⟨fallbackResponse, [req]⟩
      | Except.ok tool_result_blocks =>
        let messages2 := req.messages
          ++ [⟨"assistant", MsgContent.raw initial_response.content⟩]
          ++ (if !tool_result_blocks.isEmpty then
                [⟨"user", MsgContent.blocks tool_result_blocks⟩]
              else [])
        let finalReq : Request := ⟨messages2, req.system, none⟩
        match client 1 finalReq with
        | Except.error _ => ⟨fallbackResponse, [req, finalReq]⟩
        | Except.ok final_response =>
          match final_response.content with
          | [] => ⟨emptyResponseText, [req, finalReq]⟩
          | b :: _ =>
            match b.getText with
            | Except.ok t => ⟨t, [req, finalReq]⟩
            | Except.error _ => ⟨fallbackResponse, [req, finalReq]⟩
    | _, _ =>
      match initial_response.content with
      | [] => ⟨emptyResponseText, [req]⟩
      | b :: _ =>
        match b.getText with
        | Except.ok t => ⟨t, [req]⟩
        | Except.error _ => ⟨fallbackResponse, [req]⟩

/-- Specification-side view: the `{id, name, input}` triples of the `tool_use`
blocks of a content list, in order. -/
def toolUseTriples : List RawBlock → List (String × String × ToolInput)
  | [] => []
  | RawBlock.toolUse i n inp :: rest => (i, n, inp) :: toolUseTriples rest
  | _ :: rest => toolUseTriples rest

/-- Specification-side view: the result string one tool call contributes — the
handler's result on success, the synthetic error string on a raise. -/
def toolResultString (tool_manager : ToolManager) (t : String × String × ToolInput) :
    String :=
  match tool_manager t.2.1 t.2.2 with
  | Except.ok r => r
  | Except.error e => "Error executing tool " ++ t.2.1 ++ ": " ++ e

/-- A mutation of `ConversationState` by one of its two mutating operations. -/
inductive StateOp where
  | addRound (response : Resp) (tool_results : List String) (tool_use_ids : List String)
  | setFinal (s : String)

/-- Apply one mutating operation. -/
def applyOp (st : ConversationState) : StateOp → ConversationState
  | StateOp.addRound r rs ids => st.add_round_result r rs ids
  | StateOp.setFinal s => st.set_final_response s

/-- Apply a sequence of mutating operations, oldest first. -/
def applyOps (st : ConversationState) : List StateOp → ConversationState
  | [] => st
  | op :: ops => applyOps (applyOp st op) ops

/-- Does a character list start with the pattern? (specification-side). -/
def charsStartWith : List Char → List Char → Bool
  | _, [] => true
  | [], _ :: _ => false
  | c :: cs, p :: ps => c == p && charsStartWith cs ps

/-- Does a character list contain the pattern as a contiguous run? -/
def charsHaveSub : List Char → List Char → Bool
  | [], pat => pat.isEmpty
  | c :: rest, pat => charsStartWith (c :: rest) pat || charsHaveSub rest pat

/-- Does the string contain the pattern as a substring? (specification-side). -/
def strHasSub (s : String) (pat : String) : Bool := charsHaveSub s.data pat.data

/-- Whether `add_round_result` keeps a provider block. -/
def keptBlock : RawBlock → Bool
  | RawBlock.text _ => true
  | RawBlock.toolUse _ _ _ => true
  | _ => false

/-- The conversion `add_round_result` applies to a kept block. -/
def rawToMsg : RawBlock → MsgBlock
  | RawBlock.text t => MsgBlock.text t
  | RawBlock.toolUse i n inp => MsgBlock.toolUse i n inp
  | _ => MsgBlock.text ""

/-- Is a transcript block a `Text` or a `ToolUse` block? -/
def textOrToolUse : MsgBlock → Bool
  | MsgBlock.text _ => true
  | MsgBlock.toolUse _ _ _ => true
  | MsgBlock.toolResult _ _ => false

/-- Concrete inputs used by witnesses and counterexamples. -/
def c1tm : ToolManager := fun _ _ => Except.ok "tool output"

def c1resp : Resp := ⟨"tool_use", [RawBlock.toolUse "toolu_1" "search_course_content" [("query", "mcp")]]⟩

def c1client : Client := fun _ _ => Except.ok c1resp

def c2tm : ToolManager := fun n _ =>
  if n == "bad" then Except.error "boom" else Except.ok ("ok-" ++ n)

def c2blocks : List RawBlock :=
  [RawBlock.text "preamble", RawBlock.toolUse "id1" "good" [],
   RawBlock.toolUse "id2" "bad" []]

def c3client : Client := fun _ _ => Except.ok ⟨"end_turn", [RawBlock.text ""]⟩

def c3wclient : Client := fun _ _ => Except.ok ⟨"end_turn", [RawBlock.text "hello"]⟩

def c4client : Client := fun _ _ => Except.error "API Error"

def c5client : Client := fun _ _ =>
  Except.ok ⟨"tool_use", [RawBlock.text "INSPECT ME", RawBlock.toolUse "tid" "search" []]⟩

def c5conv : ConversationState := ConversationState.create "q" none (some ["toolA"]) none

def c5resp : Resp := ⟨"tool_use", [RawBlock.text "INSPECT ME", RawBlock.toolUse "tid" "search" []]⟩

def c5aclient : Client := fun _ _ => Except.ok c5resp

def c6state : ConversationState :=
  { initial_query := "q", conversation_history := none, tools := none,
    tool_manager := none, messages := [⟨"user", MsgContent.str "q"⟩],
    tool_results := ["alpha"], round_number := 0, final_response := none }

def c8state : ConversationState :=
  { initial_query := "q", conversation_history := none, tools := none,
    tool_manager := none, messages := [⟨"user", MsgContent.str "q"⟩],
    tool_results := [], round_number := 1, final_response := some "" }

def c8wstate : ConversationState :=
  { c8state with final_response := some "done" }

def c9resp : Resp := ⟨"tool_use", [RawBlock.toolUse "i1" "f" [("q", "x")]]⟩

def c9client : Client := fun _ _ => Except.ok c9resp

def c9tm : ToolManager := fun _ _ => Except.error "boom"

def c10state : ConversationState := ConversationState.create "q" none none none

def c10resp : Resp :=
  ⟨"tool_use", [RawBlock.otherTyped "thinking", RawBlock.text "t", RawBlock.noType,
    RawBlock.toolUse "i" "n" []]⟩

/-- Specification-side: the round-progress annotation of the system content. -/
def roundNote (round_num : Nat) (max_rounds : Nat) : String :=
  if round_num == 1 then
    "\nThis is your first round. Use tools strategically for information gathering."
  else if round_num == max_rounds then
    "\nThis is your final round. Synthesize information and provide a complete answer."
  else
    "\nContinue gathering information or refine your search based on previous results."

/-- Specification-side: the heading that precedes the tool-result summary. -/
def summaryHeading (round_num : Nat) (max_rounds : Nat) : String :=
  if round_num == max_rounds then "\n\nPrevious tool results summary:\n"
  else "\n\nPrevious tool results:\n"

/-- Specification-side rendering of entry `i` (1-indexed) of the summary: the
entry truncated to its first 300 characters with a `"..."` suffix exactly when
it is longer than 300 characters. -/
def specSummaryLine (i : Nat) (r : String) : String :=
  "Result " ++ toString i ++ ": " ++
    (if 300 < r.length then String.mk (r.data.take 300) ++ "..." else r)

/-- Specification-side summary: entries 1-indexed in original order, rendered
by `specSummaryLine` and joined by newlines. -/
def specSummary (rs : List String) : String :=
  String.intercalate "\n" ((List.enumFrom 1 rs).map fun p => specSummaryLine p.1 p.2)

theorem execute_tools_go_eq (tool_manager : ToolManager) (blocks : List RawBlock)
    (h : RawBlock.noType ∉ blocks) : ∀ (accR accI : List String),
    execute_tools_go tool_manager accR accI blocks =
      Except.ok (accR ++ (toolUseTriples blocks).map (toolResultString tool_manager),
        accI ++ (toolUseTriples blocks).map (fun t => t.1)) := by
  induction blocks with
  | nil => intro accR accI; simp [execute_tools_go, toolUseTriples]
  | cons b rest ih =>
    intro accR accI
    have hb : b ≠ RawBlock.noType := fun hb => h (hb ▸ List.mem_cons_self b rest)
    have hrest : RawBlock.noType ∉ rest := fun hm => h (List.mem_cons_of_mem b hm)
    cases b with
    | text t => simpa [execute_tools_go, toolUseTriples] using ih hrest accR accI
    | otherTyped ty => simpa [execute_tools_go, toolUseTriples] using ih hrest accR accI
    | noType => exact absurd rfl hb
    | toolUse i n inp =>
      cases htm : tool_manager n inp with
      | ok r =>
        simp [execute_tools_go, toolUseTriples, htm, toolResultString, ih hrest]
      | error e =>
        simp [execute_tools_go, toolUseTriples, htm, toolResultString, ih hrest]

/-- C2: over any content-block sequence (every block carrying a `type`
attribute, as provider blocks do), `_execute_tools_for_round` never propagates
a tool exception: it returns result and id lists that are exactly the per-block
outcomes of the `tool_use` blocks in their original order — the handler's
result on success, `"Error executing tool {name}: {message}"` on a raise, the
block's id either way — so both lists have one entry per `tool_use` block and
one failing tool never prevents the remaining tool calls from executing. -/
theorem c2_execute_tools_spec (tool_manager : ToolManager) (blocks : List RawBlock)
    (h : RawBlock.noType ∉ blocks) :
    ∃ results ids,
      execute_tools_for_round tool_manager blocks = Except.ok (results, ids) ∧
      results = (toolUseTriples blocks).map (toolResultString tool_manager) ∧
      ids = (toolUseTriples blocks).map (fun t => t.1) ∧
      results.length = (toolUseTriples blocks).length ∧
      ids.length = (toolUseTriples blocks).length := by
  refine ⟨_, _, ?_, rfl, rfl, ?_, ?_⟩
  · simpa [execute_tools_for_round] using execute_tools_go_eq tool_manager blocks h [] []
  · simp
  · simp

/-- C2 witness: a batch where the second tool raises still yields a full
result/id list, with the synthetic error string in place. -/
theorem c2_witness :
    RawBlock.noType ∉ c2blocks ∧
    (∃ results ids,
      execute_tools_for_round c2tm c2blocks = Except.ok (results, ids) ∧
      results = (toolUseTriples c2blocks).map (toolResultString c2tm) ∧
      ids = (toolUseTriples c2blocks).map (fun t => t.1) ∧
      results.length = (toolUseTriples c2blocks).length ∧
      ids.length = (toolUseTriples c2blocks).length) :=
  ⟨by decide, c2_execute_tools_spec c2tm c2blocks (by decide)⟩

/-- C4: evaluation of the code at the failing input of the claim — the first
`messages.create` call raises (`"API Error"`), yet `generate_response` returns
the fallback string after one call instead of letting the exception propagate
(the repository's own test `test_anthropic_api_error` expects a raise). -/
theorem c4_provider_error_behavior :
    (generate_response c4client "Any query" none none none).answer = fallbackResponse ∧
    (generate_response c4client "Any query" none none none).log.length = 1 :=
  ⟨rfl, rfl⟩

/-- C8 counterexample: with `final_response` set to the empty string,
`get_final_response` returns the fallback, not the set value, so the claim's
"otherwise it returns final_response" fails as stated. -/
theorem c8_counterexample :
    c8state.final_response = some "" ∧
    c8state.get_final_response = fallbackResponse ∧
    c8state.get_final_response ≠ "" :=
  ⟨rfl, rfl, by decide⟩

/-- C8 (amended): `get_final_response` never fails and never returns the empty
string: it returns the fallback when `final_response` is unset or empty, and
the set value otherwise. -/
theorem c8_get_final_response_spec (st : ConversationState) :
    (st.final_response = none → st.get_final_response = fallbackResponse) ∧
    (st.final_response = some "" → st.get_final_response = fallbackResponse) ∧
    (∀ s, st.final_response = some s → s ≠ "" → st.get_final_response = s) ∧
    st.get_final_response ≠ "" := by
  have hfb : fallbackResponse ≠ "" := by decide
  cases hfr : st.final_response with
  | none => simp [ConversationState.get_final_response, hfr, hfb]
  | some s =>
    by_cases hs : s = ""
    · subst hs; simp [ConversationState.get_final_response, hfr, hfb]
    · simp [ConversationState.get_final_response, hfr, hs, hfb]

/-- C8 witness: a state with a non-empty final response gets it back. -/
theorem c8_witness :
    c8wstate.final_response = some "done" ∧ c8wstate.get_final_response = "done" :=
  ⟨rfl, (c8_get_final_response_spec c8wstate).2.2.1 "done" rfl (by decide)⟩

theorem convertContentBlocks_eq_filter (l : List RawBlock) :
    convertContentBlocks l = (l.filter keptBlock).map rawToMsg := by
  induction l with
  | nil => rfl
  | cons b rest ih =>
    cases b <;> simp [convertContentBlocks, keptBlock, rawToMsg, List.filter_cons, ih]

/-- C10: `add_round_result` appends the assistant message built from exactly
the `text` and `tool_use` blocks of the response, in their original relative
order (a filter-then-convert of the provider content), dropping every block of
any other type or with no type, so the appended assistant message holds only
`Text` and `ToolUse` blocks. -/
theorem c10_assistant_blocks (st : ConversationState) (response : Resp)
    (tool_results : List String) (tool_use_ids : List String) :
    (st.add_round_result response tool_results tool_use_ids).messages =
      st.messages ++
        (⟨"assistant", MsgContent.blocks ((response.content.filter keptBlock).map rawToMsg)⟩ ::
          (if !tool_results.isEmpty && !tool_use_ids.isEmpty then
            [⟨"user", MsgContent.blocks (buildToolResultBlocks tool_results tool_use_ids)⟩]
          else [])) ∧
    ∀ b ∈ (response.content.filter keptBlock).map rawToMsg, textOrToolUse b = true := by
  constructor
  · simp [ConversationState.add_round_result, convertContentBlocks_eq_filter]
  · intro b hb
    rcases List.mem_map.1 hb with ⟨rb, hrb, heq⟩
    have hk : keptBlock rb = true := (List.mem_filter.1 hrb).2
    cases rb <;> simp [keptBlock] at hk <;> simp [rawToMsg, textOrToolUse] at heq ⊢ <;>
      simp [← heq, textOrToolUse]

/-- C10 witness: a response mixing an unknown-typed block, a text block, a
typeless block and a tool_use block keeps only the latter two kinds, in order. -/
theorem c10_witness :
    (c10state.add_round_result c10resp ["r1"] ["id1"]).messages =
      [⟨"user", MsgContent.str "q"⟩,
       ⟨"assistant", MsgContent.blocks [MsgBlock.text "t", MsgBlock.toolUse "i" "n" []]⟩,
       ⟨"user", MsgContent.blocks [MsgBlock.toolResult "id1" "r1"]⟩] ∧
    textOrToolUse (MsgBlock.text "t") = true := by
  have h := c10_assistant_blocks c10state c10resp ["r1"] ["id1"]
  exact ⟨by decide, h.2 (MsgBlock.text "t") (by decide)⟩

theorem applyOp_append (st : ConversationState) (op : StateOp) :
    ∃ tail, (applyOp st op).messages = st.messages ++ tail := by
  cases op with
  | addRound r rs ids =>
    exact ⟨⟨"assistant", MsgContent.blocks (convertContentBlocks r.content)⟩ ::
      (if !rs.isEmpty && !ids.isEmpty then
        [⟨"user", MsgContent.blocks (buildToolResultBlocks rs ids)⟩]
      else []),
      by simp [applyOp, ConversationState.add_round_result]⟩
  | setFinal s => exact ⟨[], by simp [applyOp, ConversationState.set_final_response]⟩

theorem applyOps_head (ops : List StateOp) : ∀ (st : ConversationState) (u : Message),
    st.messages.head? = some u → (applyOps st ops).messages.head? = some u := by
  induction ops with
  | nil => intro st u h; exact h
  | cons op rest ih =>
    intro st u h
    apply ih
    rcases applyOp_append st op with ⟨tail, htail⟩
    cases hm : st.messages with
    | nil => rw [hm] at h; cases h
    | cons m ms =>
      rw [hm] at h
      rw [htail, hm]
      simpa using h

theorem roundDirect_log (conv : ConversationState) (log : List Request) (response : Resp)
    (round_num : Nat) : (roundDirect conv log response round_num).log = log := by
  simp only [roundDirect]
  split
  · rfl
  · split <;> rfl

theorem execute_round_log (client : Client) (conv : ConversationState)
    (log : List Request) (round_num max_rounds : Nat) :
    (execute_round client conv log round_num max_rounds).log =
      log ++ [mkRoundRequest conv round_num max_rounds] := by
  simp only [execute_round]
  split
  · rfl
  · split
    · split <;> rfl
    · apply roundDirect_log

/-- C7: the transcript starts as exactly one user message holding the initial
query and stays that way under any sequence of `add_round_result` and
`set_final_response` calls; each mutating operation only appends messages; and
the request every round sends to the LLM carries the conversation's full
accumulated message list (and `_execute_round` issues exactly that request). -/
theorem c7_transcript_invariants (query : String) (hist : Option String)
    (tools : Option (List ToolDef)) (tm : Option ToolManager) (ops : List StateOp) :
    (applyOps (ConversationState.create query hist tools tm) ops).messages.head? =
      some ⟨"user", MsgContent.str query⟩ ∧
    (∀ (st : ConversationState) (op : StateOp),
      ∃ tail, (applyOp st op).messages = st.messages ++ tail) ∧
    (∀ (client : Client) (conv : ConversationState) (log : List Request)
        (round_num max_rounds : Nat),
      (execute_round client conv log round_num max_rounds).log =
        log ++ [mkRoundRequest conv round_num max_rounds] ∧
      (mkRoundRequest conv round_num max_rounds).messages = conv.messages) := by
  refine ⟨applyOps_head ops _ _ rfl, applyOp_append, ?_⟩
  intro client conv log round_num max_rounds
  exact ⟨execute_round_log client conv log round_num max_rounds, rfl⟩

theorem get_final_response_cases (st : ConversationState) :
    (st.final_response = none → st.get_final_response = fallbackResponse) ∧
    (st.final_response = some "" → st.get_final_response = fallbackResponse) ∧
    (∀ s, st.final_response = some s → s ≠ "" → st.get_final_response = s) ∧
    st.get_final_response ≠ "" := by
  have hfb : fallbackResponse ≠ "" := by decide
  cases hfr : st.final_response with
  | none => simp [ConversationState.get_final_response, hfr, hfb]
  | some s =>
    by_cases hs : s = ""
    · subst hs; simp [ConversationState.get_final_response, hfr, hfb]
    · simp [ConversationState.get_final_response, hfr, hs, hfb]

theorem seq_except_spec (conv : ConversationState) (log : List Request) :
    seq_except conv log = ⟨conv.get_final_response, conv, log⟩ := by
  simp only [seq_except, ConversationState.get_final_response, truthyStr]
  cases conv.final_response with
  | none => rfl
  | some s =>
    by_cases hs : s = ""
    · subst hs; simp
    · simp [hs]

theorem seq_finish_answer (client : Client) (max_rounds : Nat) (out : RoundOutcome) :
    (seq_finish client max_rounds out).answer =
      (seq_finish client max_rounds out).conv.get_final_response := by
  simp only [seq_finish]
  split
  · rfl
  · split
    · split
      · rfl
      · split
        · rfl
        · split
          · rfl
          · simp [seq_except_spec]
    · rfl

theorem generate_sequential_answer (client : Client) (query : String)
    (hist : Option String) (tools : Option (List ToolDef)) (tm : Option ToolManager)
    (max_rounds : Nat) :
    (generate_response_sequential client query hist tools tm max_rounds).answer =
      (generate_response_sequential client query hist tools tm
        max_rounds).conv.get_final_response := by
  simp only [generate_response_sequential]
  split
  · simp [seq_except_spec]
  · apply seq_finish_answer

/-- C3 (amended): for every client and tool-handler behaviour (raises
included) and every input, `generate_response_sequential` returns a string and
that string is the last explicitly-set final response when one was set and is
non-empty, and the fixed fallback string when none was set or the set value is
the empty string; in particular the returned string is never empty. -/
theorem c3_answer_policy (client : Client) (query : String) (hist : Option String)
    (tools : Option (List ToolDef)) (tm : Option ToolManager) (max_rounds : Nat) :
    (∀ s,
      (generate_response_sequential client query hist tools tm
        max_rounds).conv.final_response = some s → s ≠ "" →
      (generate_response_sequential client query hist tools tm max_rounds).answer = s) ∧
    ((generate_response_sequential client query hist tools tm
        max_rounds).conv.final_response = none →
      (generate_response_sequential client query hist tools tm max_rounds).answer =
        fallbackResponse) ∧
    ((generate_response_sequential client query hist tools tm
        max_rounds).conv.final_response = some "" →
      (generate_response_sequential client query hist tools tm max_rounds).answer =
        fallbackResponse) ∧
    (generate_response_sequential client query hist tools tm max_rounds).answer ≠ "" := by
  have key := generate_sequential_answer client query hist tools tm max_rounds
  have h := get_final_response_cases
    (generate_response_sequential client query hist tools tm max_rounds).conv
  refine ⟨?_, ?_, ?_, ?_⟩
  · intro s hs hne; rw [key]; exact h.2.2.1 s hs hne
  · intro h0; rw [key]; exact h.1 h0
  · intro h0; rw [key]; exact h.2.1 h0
  · rw [key]; exact h.2.2.2

/-- C3 counterexample: a model answering with an empty text block makes the
orchestrator set the final response to `""` explicitly, yet the returned
string is the fallback, not the last explicitly-set final answer. -/
theorem c3_counterexample :
    (generate_response_sequential c3client "q" none none none 2).conv.final_response =
      some "" ∧
    (generate_response_sequential c3client "q" none none none 2).answer =
      fallbackResponse ∧
    fallbackResponse ≠ "" :=
  ⟨rfl, rfl, by decide⟩

/-- C3 witness: a non-empty explicitly-set final answer is returned as is. -/
theorem c3_witness :
    (generate_response_sequential c3wclient "q" none none none 2).conv.final_response =
      some "hello" ∧
    (generate_response_sequential c3wclient "q" none none none 2).answer = "hello" :=
  ⟨rfl, (c3_answer_policy c3wclient "q" none none none 2).1 "hello" rfl (by decide)⟩

/-- C5 (amended): in a round whose response has stop reason `tool_use` with no
tool manager supplied, no tool executes and no round result is folded in
(round counter, tool results and transcript are untouched), but the response
is not handed back raw: it is treated as a direct answer, the first content
block's text becoming the final response, while the raw response object is
only `_execute_round`'s internal return value. -/
theorem c5_no_manager_round (client : Client) (conv : ConversationState)
    (log : List Request) (round_num max_rounds : Nat) (r : Resp) (t : String)
    (rest : List RawBlock)
    (hclient : client log.length (mkRoundRequest conv round_num max_rounds) = Except.ok r)
    (htm : conv.tool_manager = none)
    (hstop : r.stop_reason = "tool_use")
    (hcontent : r.content = RawBlock.text t :: rest) :
    execute_round client conv log round_num max_rounds =
      ⟨conv.set_final_response t, log ++ [mkRoundRequest conv round_num max_rounds],
        some r⟩ ∧
    (conv.set_final_response t).round_number = conv.round_number ∧
    (conv.set_final_response t).tool_results = conv.tool_results ∧
    (conv.set_final_response t).messages = conv.messages := by
  refine ⟨?_, rfl, rfl, rfl⟩
  simp only [execute_round, hclient, htm]
  simp [roundDirect, hcontent, RawBlock.getText]

/-- C5 counterexample: end to end, a `tool_use` response with no tool manager
does not surface the raw response object — the orchestrator extracts the first
text block as the answer string (and never increments the round counter). -/
theorem c5_counterexample :
    (generate_response_sequential c5client "q" none (some ["toolA"]) none 2).answer =
      "INSPECT ME" ∧
    (generate_response_sequential c5client "q" none (some ["toolA"])
      none 2).conv.final_response = some "INSPECT ME" ∧
    (generate_response_sequential c5client "q" none (some ["toolA"])
      none 2).conv.round_number = 0 ∧
    (generate_response_sequential c5client "q" none (some ["toolA"]) none 2).log.length =
      2 :=
  ⟨rfl, rfl, rfl, rfl⟩

/-- C5 witness: one concrete no-manager round with a leading text block. -/
theorem c5_witness :
    execute_round c5aclient c5conv [] 1 2 =
      ⟨c5conv.set_final_response "INSPECT ME", [] ++ [mkRoundRequest c5conv 1 2],
        some c5resp⟩ ∧
    (c5conv.set_final_response "INSPECT ME").round_number = c5conv.round_number ∧
    (c5conv.set_final_response "INSPECT ME").tool_results = c5conv.tool_results ∧
    (c5conv.set_final_response "INSPECT ME").messages = c5conv.messages :=
  c5_no_manager_round c5aclient c5conv [] 1 2 c5resp "INSPECT ME"
    [RawBlock.toolUse "tid" "search" []] rfl rfl rfl rfl

theorem if_append_left (c : Prop) [Decidable c] (A B : String) :
    (if c then A ++ B else A) = A ++ (if c then B else "") := by
  split <;> simp

theorem summarizeFrom_enum (rs : List String) : ∀ (i : Nat),
    summarizeFrom i rs = (List.enumFrom i rs).map fun p => specSummaryLine p.1 p.2 := by
  induction rs with
  | nil => intro i; rfl
  | cons r rest ih =>
    intro i
    simp only [summarizeFrom, List.enumFrom, List.map_cons, ih (i + 1)]
    rfl

set_option maxRecDepth 100000 in
/-- C6 counterexample: at round 1 the summary is omitted even though prior
tool results exist (here `tool_results = ["alpha"]`), so "whenever prior tool
results exist, a summary ... " fails as stated; the summary line itself would
have been `"Result 1: alpha"`. -/
theorem c6_counterexample :
    c6state.tool_results ≠ [] ∧
    strHasSub (c6state.get_system_content 1 2) "Result 1" = false ∧
    strHasSub c6state.summarize_tool_results "Result 1" = true ∧
    c6state.get_system_content 1 2 =
      SEQUENTIAL_SYSTEM_PROMPT ++
        "\n\nCURRENT ROUND: 1/2\nThis is your first round. Use tools strategically for information gathering." :=
  ⟨by decide, by decide, by decide, rfl⟩

/-- C6 (amended): `get_system_content` is a deterministic function of round
number, max rounds, history and collected tool results: the base instructions,
then the history block when history is present, then the round-progress
annotation, then — whenever prior tool results exist AND the round number is
not 1 — a summary whose entry `i` (1-indexed, original order) is rendered as
`"Result i: "` followed by the entry truncated to its first 300 characters
with a `"..."` suffix exactly when the entry is longer than 300 characters,
entries joined by newlines. -/
theorem c6_system_content_spec (st : ConversationState) (round_num max_rounds : Nat) :
    st.get_system_content round_num max_rounds =
      SEQUENTIAL_SYSTEM_PROMPT
        ++ (if truthyStr st.conversation_history then
              "\n\nPrevious conversation:\n" ++ st.conversation_history.getD ""
            else "")
        ++ ("\n\nCURRENT ROUND: " ++ toString round_num ++ "/" ++ toString max_rounds)
        ++ roundNote round_num max_rounds
        ++ (if !st.tool_results.isEmpty && !(round_num == 1) then
              summaryHeading round_num max_rounds ++ specSummary st.tool_results
            else "") := by
  have hsum : st.tool_results.isEmpty = false →
      st.summarize_tool_results = specSummary st.tool_results := by
    intro hres
    simp [ConversationState.summarize_tool_results, hres, specSummary,
      summarizeFrom_enum]
  by_cases h1 : round_num = 1
  · subst h1
    simp [ConversationState.get_system_content, roundNote, if_append_left,
      String.append_assoc, String.append_empty, String.empty_append]
  · by_cases hm : round_num = max_rounds
    · subst hm
      cases hres : st.tool_results.isEmpty with
      | true =>
        simp [ConversationState.get_system_content, roundNote, summaryHeading, h1,
          hres, if_append_left, String.append_assoc, String.append_empty,
          String.empty_append]
      | false =>
        have hmerge : ∀ s : String,
            "\nThis is your final round. Synthesize information and provide a complete answer." ++
              ("\n\nPrevious tool results summary:\n" ++ s) =
            "\nThis is your final round. Synthesize information and provide a complete answer.\n\nPrevious tool results summary:\n" ++ s :=
          fun s => by rw [← String.append_assoc]; rfl
        simp [ConversationState.get_system_content, roundNote, summaryHeading, h1,
          hres, hsum hres, if_append_left, String.append_assoc, String.append_empty,
          String.empty_append, hmerge]
    · cases hres : st.tool_results.isEmpty with
      | true =>
        simp [ConversationState.get_system_content, roundNote, summaryHeading, h1, hm,
          hres, if_append_left, String.append_assoc, String.append_empty,
          String.empty_append]
      | false =>
        have hmerge : ∀ s : String,
            "\nContinue gathering information or refine your search based on previous results." ++
              ("\n\nPrevious tool results:\n" ++ s) =
            "\nContinue gathering information or refine your search based on previous results.\n\nPrevious tool results:\n" ++ s :=
          fun s => by rw [← String.append_assoc]; rfl
        simp [ConversationState.get_system_content, roundNote, summaryHeading, h1, hm,
          hres, hsum hres, if_append_left, String.append_assoc, String.append_empty,
          String.empty_append, hmerge]

theorem execute_round_tool (client : Client) (conv : ConversationState)
    (log : List Request) (round_num max_rounds : Nat) (r : Resp) (tm : ToolManager)
    (hclient : client log.length (mkRoundRequest conv round_num max_rounds) = Except.ok r)
    (htm : conv.tool_manager = some tm)
    (hstop : r.stop_reason = "tool_use")
    (hwf : RawBlock.noType ∉ r.content) :
    execute_round client conv log round_num max_rounds =
      ⟨conv.add_round_result r ((toolUseTriples r.content).map (toolResultString tm))
          ((toolUseTriples r.content).map (fun t => t.1)),
        log ++ [mkRoundRequest conv round_num max_rounds], some r⟩ := by
  have hexec := execute_tools_go_eq tm r.content hwf [] []
  simp only [execute_round, hclient, htm, hstop, execute_tools_for_round]
  simp [hexec]

theorem execute_final_log (client : Client) (conv : ConversationState)
    (log : List Request) :
    (execute_final_response client conv log).1 = log ++ [mkFinalRequest conv] := by
  simp only [execute_final_response]
  split <;> rfl

theorem seq_finish_forced_log (client : Client) (max_rounds : Nat)
    (conv : ConversationState) (log : List Request) (r : Resp)
    (hcond : r.stop_reason = "tool_use" ∧ max_rounds ≤ conv.round_number ∧
      truthyStr conv.final_response = false) :
    (seq_finish client max_rounds ⟨conv, log, some r⟩).log =
      log ++ [mkFinalRequest conv] := by
  simp only [seq_finish]
  rw [if_pos hcond]
  split
  · rename_i log2 heq
    have h := execute_final_log client conv log
    rw [heq] at h
    exact h
  · rename_i log2 fr heq
    have h := execute_final_log client conv log
    rw [heq] at h
    split
    · exact h
    · split
      · exact h
      · exact h

/-- C1: with `max_rounds = 2`, a tool manager present, and a model whose every
answer has stop reason `tool_use` (well-formed provider blocks), the
orchestrator issues exactly 3 LLM requests — round 1, round 2, and one
forced-final request — and the forced-final request carries no tools key. -/
theorem c1_three_llm_calls (client : Client) (tm : ToolManager) (query : String)
    (hist : Option String) (tools : Option (List ToolDef))
    (h : ∀ i req, ∃ r, client i req = Except.ok r ∧ r.stop_reason = "tool_use" ∧
      RawBlock.noType ∉ r.content) :
    ∃ req1 req2 req3,
      (generate_response_sequential client query hist tools (some tm) 2).log =
        [req1, req2, req3] ∧
      req3.tools = none := by
  obtain ⟨r1, hc1, hs1, hw1⟩ :=
    h 0 (mkRoundRequest (ConversationState.create query hist tools (some tm)) 1 2)
  have e1 := execute_round_tool client (ConversationState.create query hist tools (some tm))
    [] 1 2 r1 tm hc1 rfl hs1 hw1
  obtain ⟨r2, hc2, hs2, hw2⟩ :=
    h 1 (mkRoundRequest ((ConversationState.create query hist tools (some tm)).add_round_result
      r1 ((toolUseTriples r1.content).map (toolResultString tm))
      ((toolUseTriples r1.content).map (fun t => t.1))) 2 2)
  have e2 := execute_round_tool client
    ((ConversationState.create query hist tools (some tm)).add_round_result
      r1 ((toolUseTriples r1.content).map (toolResultString tm))
      ((toolUseTriples r1.content).map (fun t => t.1)))
    ([] ++ [mkRoundRequest (ConversationState.create query hist tools (some tm)) 1 2]) 2 2
    r2 tm (by simpa using hc2) rfl hs2 hw2
  have hgen : generate_response_sequential client query hist tools (some tm) 2 =
      seq_finish client 2 (seq_loop_go client 2 1 1
        (ConversationState.create query hist tools (some tm)) []) := rfl
  have step1 : seq_loop_go client 2 1 1
      (ConversationState.create query hist tools (some tm)) [] =
      seq_loop_go client 2 0 2
        (execute_round client (ConversationState.create query hist tools (some tm)) [] 1 2).conv
        (execute_round client (ConversationState.create query hist tools (some tm)) [] 1 2).log := by
    rw [show seq_loop_go client 2 1 1
        (ConversationState.create query hist tools (some tm)) [] =
        (if should_terminate
            (execute_round client (ConversationState.create query hist tools (some tm)) [] 1 2).response 1 2
         then execute_round client (ConversationState.create query hist tools (some tm)) [] 1 2
         else seq_loop_go client 2 0 2
            (execute_round client (ConversationState.create query hist tools (some tm)) [] 1 2).conv
            (execute_round client (ConversationState.create query hist tools (some tm)) [] 1 2).log)
      from rfl]
    rw [e1]
    simp [should_terminate, hs1]
  have step2 : ∀ (c : ConversationState) (l : List Request),
      seq_loop_go client 2 0 2 c l = execute_round client c l 2 2 := fun c l => rfl
  refine ⟨mkRoundRequest (ConversationState.create query hist tools (some tm)) 1 2,
    mkRoundRequest ((ConversationState.create query hist tools (some tm)).add_round_result
      r1 ((toolUseTriples r1.content).map (toolResultString tm))
      ((toolUseTriples r1.content).map (fun t => t.1))) 2 2,
    mkFinalRequest (((ConversationState.create query hist tools (some tm)).add_round_result
      r1 ((toolUseTriples r1.content).map (toolResultString tm))
      ((toolUseTriples r1.content).map (fun t => t.1))).add_round_result
      r2 ((toolUseTriples r2.content).map (toolResultString tm))
      ((toolUseTriples r2.content).map (fun t => t.1))), ?_, rfl⟩
  rw [hgen, step1, e1]
  simp only
  rw [step2, e2, seq_finish_forced_log]
  · simp
  · exact ⟨hs2, Nat.le_refl 2, rfl⟩

/-- C1 witness: a concrete always-tool-use model yields exactly 3 requests,
the last one without tools. -/
theorem c1_witness :
    ∃ req1 req2 req3,
      (generate_response_sequential c1client "What is MCP?" none
        (some ["search_course_content"]) (some c1tm) 2).log = [req1, req2, req3] ∧
      req3.tools = none :=
  c1_three_llm_calls c1client c1tm "What is MCP?" none (some ["search_course_content"])
    (fun _ _ => ⟨c1resp, rfl, rfl, by decide⟩)

theorem handle_tool_batch_err (tm : ToolManager) (content : List RawBlock)
    (hwf : RawBlock.noType ∉ content)
    (hfail : ∃ t ∈ toolUseTriples content, ∃ e, tm t.2.1 t.2.2 = Except.error e) :
    ∃ e, handle_tool_batch tm content = Except.error e := by
  induction content with
  | nil =>
    rcases hfail with ⟨t, ht, _⟩
    simp [toolUseTriples] at ht
  | cons b rest ih =>
    have hwf2 : RawBlock.noType ∉ rest := fun hm => hwf (List.mem_cons_of_mem b hm)
    cases b with
    | text t =>
      simp only [toolUseTriples] at hfail
      rcases ih hwf2 hfail with ⟨e, he⟩
      exact ⟨e, by simp [handle_tool_batch, he]⟩
    | otherTyped ty =>
      simp only [toolUseTriples] at hfail
      rcases ih hwf2 hfail with ⟨e, he⟩
      exact ⟨e, by simp [handle_tool_batch, he]⟩
    | noType => exact absurd (List.mem_cons_self _ _) hwf
    | toolUse i n inp =>
      cases htm : tm n inp with
      | error e => exact ⟨e, by simp [handle_tool_batch, htm]⟩
      | ok r =>
        have hfail2 : ∃ t ∈ toolUseTriples rest, ∃ e, tm t.2.1 t.2.2 = Except.error e := by
          rcases hfail with ⟨t, ht, e, he⟩
          simp only [toolUseTriples, List.mem_cons] at ht
          rcases ht with rfl | ht
          · rw [htm] at he; cases he
          · exact ⟨t, ht, e, he⟩
        rcases ih hwf2 hfail2 with ⟨e, he⟩
        exact ⟨e, by simp [handle_tool_batch, htm, he]⟩

/-- C9: in the legacy single-round path, a tool handler that raises is not
degraded to a per-tool error string: the exception escapes
`_handle_tool_execution`, the catch-all of `generate_response` converts the
whole call to the fallback string, no follow-up LLM call is made (the log
holds only the initial request), and the other tool results of the batch are
discarded with the rest of the round. -/
theorem c9_legacy_tool_error (client : Client) (query : String) (hist : Option String)
    (tools : Option (List ToolDef)) (tm : ToolManager) (r : Resp)
    (hclient : client 0 (legacyRequest query hist tools) = Except.ok r)
    (hstop : r.stop_reason = "tool_use")
    (hwf : RawBlock.noType ∉ r.content)
    (hfail : ∃ t ∈ toolUseTriples r.content, ∃ e, tm t.2.1 t.2.2 = Except.error e) :
    (generate_response client query hist tools (some tm)).answer = fallbackResponse ∧
    (generate_response client query hist tools (some tm)).log =
      [legacyRequest query hist tools] := by
  rcases handle_tool_batch_err tm r.content hwf hfail with ⟨e, he⟩
  constructor <;> simp [generate_response, hclient, hstop, he]

/-- C9 witness: one concrete raising handler in the legacy path. -/
theorem c9_witness :
    (generate_response c9client "query" none none (some c9tm)).answer =
      fallbackResponse ∧
    (generate_response c9client "query" none none (some c9tm)).log =
      [legacyRequest "query" none none] :=
  c9_legacy_tool_error c9client "query" none none c9tm c9resp rfl rfl (by decide)
    ⟨("i1", "f", [("q", "x")]), by decide, "boom", rfl⟩
